import Mathlib

/-!
Shallow embedding of the httptest_mock subsystem of guionardo/go:
the request matcher (request.go), the response writer (builder.go),
mock entries and hit bookkeeping (mock.go), and the registry/dispatcher
(MockHandler).  Go maps are modelled as association lists, Go byte
slices and strings both as Lean strings, the JSON codec of encoding/json
as an executable parser/renderer over a generic tree, and the mutable
state of one match attempt (captured data, match log, re-buffered
request body) as explicitly threaded values.
-/

namespace HttptestMock

/-- Generic JSON tree, the model of the value a Go any decodes to
(encoding/json decodes into nested maps and slices).  Numbers are
restricted to integers in this model. -/
inductive Json where
  | null : Json
  | bool (b : Bool) : Json
  | num (n : Int) : Json
  | str (s : String) : Json
  | arr (xs : List Json) : Json
  | obj (fields : List (String × Json)) : Json

/-- Whitespace skipping of the JSON scanner. -/
def skipWs (cs : List Char) : List Char :=
  cs.dropWhile fun c => c == ' ' || c == '\n' || c == '\t' || c == '\r'

/-- Read the characters of a JSON string literal up to the closing quote
(escape sequences are not modelled). -/
def takeStr : List Char → Option (List Char × List Char)
  | [] => none
  | c :: rest =>
    if c == '"' then some ([], rest)
    else (takeStr rest).map fun p => (c :: p.1, p.2)

/-- Decimal digits to a natural number. -/
def digitsToNat (ds : List Char) : Nat :=
  ds.foldl (fun a c => a * 10 + (c.toNat - 48)) 0

/-- Parse an integer literal (optional leading minus). -/
def parseNum (cs : List Char) : Option (Int × List Char) :=
  match cs with
  | '-' :: rest =>
    let ds := rest.takeWhile Char.isDigit
    let rem := rest.dropWhile Char.isDigit
    if ds.isEmpty then none else some (-(Int.ofNat (digitsToNat ds)), rem)
  | _ =>
    let ds := cs.takeWhile Char.isDigit
    let rem := cs.dropWhile Char.isDigit
    if ds.isEmpty then none else some (Int.ofNat (digitsToNat ds), rem)

mutual

/-- Fuel-driven recursive-descent parser for one JSON value, the model of
encoding/json's Unmarshal into a generic any. -/
def parseVal : Nat → List Char → Option (Json × List Char)
  | 0, _ => none
  | fuel + 1, cs =>
    match skipWs cs with
    | 'n' :: 'u' :: 'l' :: 'l' :: rest => some (Json.null, rest)
    | 't' :: 'r' :: 'u' :: 'e' :: rest => some (Json.bool true, rest)
    | 'f' :: 'a' :: 'l' :: 's' :: 'e' :: rest => some (Json.bool false, rest)
    | '"' :: rest => (takeStr rest).map fun p => (Json.str (String.mk p.1), p.2)
    | '[' :: rest =>
      match skipWs rest with
      | ']' :: rem => some (Json.arr [], rem)
      | cs2 => (parseItems fuel cs2).map fun p => (Json.arr p.1, p.2)
    | '{' :: rest =>
      match skipWs rest with
      | '}' :: rem => some (Json.obj [], rem)
      | cs2 => (parseFields fuel cs2).map fun p => (Json.obj p.1, p.2)
    | cs2 => (parseNum cs2).map fun p => (Json.num p.1, p.2)

/-- Parse the comma-separated items of a non-empty JSON array, including
the closing bracket. -/
def parseItems : Nat → List Char → Option (List Json × List Char)
  | 0, _ => none
  | fuel + 1, cs =>
    match parseVal fuel cs with
    | none => none
    | some (v, rest) =>
      match skipWs rest with
      | ',' :: rest2 => (parseItems fuel rest2).map fun p => (v :: p.1, p.2)
      | ']' :: rest2 => some ([v], rest2)
      | _ => none

/-- Parse the comma-separated fields of a non-empty JSON object, including
the closing brace. -/
def parseFields : Nat → List Char → Option (List (String × Json) × List Char)
  | 0, _ => none
  | fuel + 1, cs =>
    match skipWs cs with
    | '"' :: rest =>
      match takeStr rest with
      | none => none
      | some (kcs, rest2) =>
        match skipWs rest2 with
        | ':' :: rest3 =>
          match parseVal fuel rest3 with
          | none => none
          | some (v, rest4) =>
            match skipWs rest4 with
            | ',' :: rest5 =>
              (parseFields fuel rest5).map fun p => ((String.mk kcs, v) :: p.1, p.2)
            | '}' :: rest5 => some ([(String.mk kcs, v)], rest5)
            | _ => none
        | _ => none
    | _ => none

end

/-- Decode a whole JSON document: the value must consume the input up to
trailing whitespace, as json.Unmarshal requires. -/
def jsonParse (s : String) : Except String Json :=
  match parseVal (s.length + 1) s.toList with
  | none => Except.error "unexpected end of JSON input"
  | some (j, rest) =>
    if (skipWs rest).isEmpty then Except.ok j
    else Except.error "invalid character after top-level value"

mutual

/-- Render a JSON tree the way encoding/json's Marshal prints it: no
spaces, object fields in the stored order. -/
def render : Json → String
  | Json.null => "null"
  | Json.bool true => "true"
  | Json.bool false => "false"
  | Json.num n => toString n
  | Json.str s => "\"" ++ s ++ "\""
  | Json.arr xs => "[" ++ renderItems xs ++ "]"
  | Json.obj fs => "\x7b" ++ renderFields fs ++ "\x7d"

/-- Comma-join of rendered array items. -/
def renderItems : List Json → String
  | [] => ""
  | [x] => render x
  | x :: y :: xs => render x ++ "," ++ renderItems (y :: xs)

/-- Comma-join of rendered object fields. -/
def renderFields : List (String × Json) → String
  | [] => ""
  | [(k, v)] => "\"" ++ k ++ "\":" ++ render v
  | (k, v) :: f :: fs => "\"" ++ k ++ "\":" ++ render v ++ "," ++ renderFields (f :: fs)

end

/-- Byte-order comparison of strings (UTF-8 byte order coincides with
code-point order), kernel-computable. -/
def leChars : List Char → List Char → Bool
  | [], _ => true
  | _ :: _, [] => false
  | a :: as, b :: bs =>
    if a < b then true else if a == b then leChars as bs else false

/-- String order used when Marshal prints a Go map's keys. -/
def leStr (a b : String) : Bool :=
  leChars a.toList b.toList

/-- Insert one field into a key-sorted field list (Marshal of a Go map
prints the keys in sorted order). -/
def insertFieldSorted (p : String × Json) : List (String × Json) → List (String × Json)
  | [] => [p]
  | q :: qs => if leStr p.1 q.1 then p :: q :: qs else q :: insertFieldSorted p qs

/-- Sort an object's fields by key. -/
def sortFieldsByKey (fs : List (String × Json)) : List (String × Json) :=
  fs.foldr insertFieldSorted []

mutual

/-- Recursively put every object's fields in sorted key order: the
canonical form encoding/json produces when a decoded generic tree is
re-marshalled. -/
def sortJson : Json → Json
  | Json.arr xs => Json.arr (sortItems xs)
  | Json.obj fs => Json.obj (sortFieldsByKey (sortFields fs))
  | j => j

/-- Canonicalize each item of an array. -/
def sortItems : List Json → List Json
  | [] => []
  | x :: xs => sortJson x :: sortItems xs

/-- Canonicalize each field value of an object. -/
def sortFields : List (String × Json) → List (String × Json)
  | [] => []
  | (k, v) :: fs => (k, sortJson v) :: sortFields fs

end

/-- Tagged model of the dynamically typed Go body value (request.go and
builder.go treat a body as string, byte slice, or any JSON-serializable
value; badVal stands for a value whose MarshalJSON fails, as the
repository's badMarshaler test double does). -/
inductive BodyValue where
  | strVal (s : String) : BodyValue
  | bytesVal (b : String) : BodyValue
  | jsonVal (j : Json) : BodyValue
  | badVal (e : String) : BodyValue

/-- The byte-slice branch of marshalSorted: unmarshal the raw bytes to a
generic tree and re-marshal it (request.go, marshalSorted). -/
def marshalSortedOfBytes (data : String) : Except String String :=
  match jsonParse data with
  | Except.error e => Except.error e
  | Except.ok j => Except.ok (render (sortJson j))

/-- The general branch of marshalSorted: marshal the value, unmarshal the
result to a generic tree, and marshal that tree (request.go,
marshalSorted). -/
def marshalSortedVia (j : Json) : Except String String :=
  match jsonParse (render j) with
  | Except.error e => Except.error e
  | Except.ok t => Except.ok (render (sortJson t))

/-- marshalSorted of request.go over the tagged body model: byte slices
are decoded directly, any other value goes through marshal, unmarshal,
marshal; a value whose marshalling fails yields the error. -/
def marshalSorted : BodyValue → Except String String
  | BodyValue.bytesVal b => marshalSortedOfBytes b
  | BodyValue.strVal s => marshalSortedVia (Json.str s)
  | BodyValue.jsonVal j => marshalSortedVia j
  | BodyValue.badVal e => Except.error e

/-- compareBody of request.go: strings and byte slices compare literally;
any other expected value and the request bytes are both canonicalized
with marshalSorted and compared byte for byte, any error making the
comparison false. -/
def compareBody (expected : BodyValue) (fromRequest : String) : Bool :=
  match expected with
  | BodyValue.strVal s => fromRequest == s
  | BodyValue.bytesVal b => fromRequest == b
  | other =>
    match marshalSorted other, marshalSortedOfBytes fromRequest with
    | Except.ok a, Except.ok b => a == b
    | _, _ => false

/-- Three-level match outcome of one matching attempt (request.go). -/
inductive RequestMatchLevel where
  | MatchLevelNone : RequestMatchLevel
  | MatchLevelPartial : RequestMatchLevel
  | MatchLevelFull : RequestMatchLevel
deriving DecidableEq, Repr

/-- Model of an io.ReadCloser request body: either a readable buffer or a
reader whose Read errors, as the repository's bodyWithError test double
does. -/
inductive BodyStream where
  | buf (content : String) : BodyStream
  | err (msg : String) : BodyStream

/-- io.ReadAll over the body model: a buffer is drained (subsequent reads
see an empty buffer), an erroring reader keeps erroring. -/
def readAll : BodyStream → Except String String × BodyStream
  | BodyStream.buf c => (Except.ok c, BodyStream.buf "")
  | BodyStream.err e => (Except.error e, BodyStream.err e)

/-- Incoming HTTP request as the matcher consumes it: method, URL path,
query lookup, case-insensitive header lookup, the routing framework's
PathValue lookup, and the body stream. -/
structure HttpRequest where
  Method : String
  URLPath : String
  QueryGet : String → String
  HeaderGet : String → String
  PathValueGet : String → String
  Body : BodyStream

/-- Request matching criteria of one mock (request.go). -/
structure Request where
  Method : String
  Path : String
  QueryParams : List (String × String)
  PathParams : List (String × String)
  Headers : List (String × String)
  Body : Option BodyValue
  PartialMatch : Bool

/-- Transient per-attempt matcher state: captured data keyed by
namespaced names, and the diagnostic match log. -/
structure MatchState where
  readData : List (String × String)
  matchLog : List String

/-- Namespacing tag for captured path parameters.  The constant's
declaration file is not in the sources; its concrete text is irrelevant
to every property proved here. -/
def readDataPathParamPrefix : String := "path_param:"

/-- Namespacing tag for captured query parameters. -/
def readDataQueryParamPrefix : String := "query_param:"

/-- Namespacing tag for captured headers. -/
def readDataHeaderPrefix : String := "header:"

/-- The no-match marker used in log lines. -/
def noMatchEmoji : String := "❌"

/-- The match marker used in log lines. -/
def matchEmoji : String := "✅"

/-- Go map read with the zero-value default: the last write wins, a
missing key reads as the empty string. -/
def rdGet (rd : List (String × String)) (k : String) : String :=
  match rd.reverse.find? (fun p => p.1 == k) with
  | some p => p.2
  | none => ""

/-- Append one diagnostic line. -/
def addLog (st : MatchState) (line : String) : MatchState :=
  { st with matchLog := st.matchLog ++ [line] }

/-- setMatchLog of request.go: the formatted no-match message, with the
two asymmetric empty cases. -/
def setMatchLog (st : MatchState) (part expected actual : String) : MatchState :=
  if expected == "" && actual != "" then
    addLog st (noMatchEmoji ++ " " ++ part ++ " expected empty but got " ++ actual)
  else if expected != "" && actual == "" then
    addLog st (noMatchEmoji ++ " " ++ part ++ " expected " ++ expected ++ " but got empty")
  else
    addLog st (noMatchEmoji ++ " " ++ part ++ " expected " ++ expected ++ " but got " ++ actual)

/-- flow.Default instantiated at strings: the fallback when the primary
value is the zero value. -/
def flowDefault (value valueIfZero : String) : String :=
  if value == "" then valueIfZero else value

/-- Does the string hold the character (strings.Contains with a
one-character substring)? -/
def containsChar (s : String) (c : Char) : Bool :=
  s.toList.contains c

/-- strings.HasPrefix with a one-character prefix. -/
def strStartsWithChar (s : String) (c : Char) : Bool :=
  match s.toList with
  | [] => false
  | a :: _ => a == c

/-- strings.HasSuffix with a one-character suffix. -/
def strEndsWithChar (s : String) (c : Char) : Bool :=
  match s.toList.getLast? with
  | some a => a == c
  | none => false

/-- strings.Split at the slash separator: the list of groups between the
separators, empty groups included. -/
def splitSlash : List Char → List (List Char)
  | [] => [[]]
  | c :: rest =>
    if c == '/' then [] :: splitSlash rest
    else
      match splitSlash rest with
      | [] => [[c]]
      | g :: gs => (c :: g) :: gs

/-- strings.Split(s, slash) over strings. -/
def splitOnSlash (s : String) : List String :=
  (splitSlash s.toList).map String.mk

/-- Is a template segment wrapped in braces (a placeholder)? -/
def isPlaceholderSeg (s : String) : Bool :=
  strStartsWithChar s '{' && strEndsWithChar s '}'

/-- Character class of strings.Trim's cutset in matchPath. -/
def isCurlyChar (c : Char) : Bool :=
  c == '{' || c == '}'

/-- strings.Trim(s, cutset of both braces): drop the leading and trailing
brace characters. -/
def trimCurlies (s : String) : String :=
  String.mk (((s.toList.dropWhile isCurlyChar).reverse.dropWhile isCurlyChar).reverse)

/-- The segment loop of matchPath: placeholders capture the actual
segment under the namespaced parameter name, literal segments must be
equal, the first literal mismatch stops with the captures made so far. -/
def matchPathSegs : List String → List String → List (String × String) →
    Bool × List (String × String)
  | [], [], acc => (true, acc)
  | mp :: ms, rp :: rs, acc =>
    if isPlaceholderSeg mp then
      matchPathSegs ms rs (acc ++ [(readDataPathParamPrefix ++ trimCurlies mp, rp)])
    else if mp == rp then matchPathSegs ms rs acc
    else (false, acc)
  | _, _, acc => (false, acc)

/-- matchPath of request.go: a template holding a brace is split on
slashes and compared segment-wise with capture, any other template
requires exact path equality.  The second component is what the loop
stored into readData. -/
def Request.matchPath (r : Request) (req : HttpRequest) : Bool × List (String × String) :=
  if containsChar r.Path '{' then
    let mParts := splitOnSlash r.Path
    let rParts := splitOnSlash req.URLPath
    if mParts.length != rParts.length then (false, [])
    else matchPathSegs mParts rParts []
  else (r.Path == req.URLPath, [])

/-- matchQueryParams of request.go: every expected query parameter must
equal the request's value; matching values are captured, the first
mismatch is logged and stops. -/
def matchQueryParams (req : HttpRequest) : List (String × String) → MatchState →
    Bool × MatchState
  | [], st => (true, st)
  | (key, value) :: rest, st =>
    let queryValue := req.QueryGet key
    if queryValue != value then
      (false, setMatchLog st ("QUERY PARAM [" ++ key ++ "]") value queryValue)
    else
      matchQueryParams req rest
        { st with readData := st.readData ++ [(readDataQueryParamPrefix ++ key, queryValue)] }

/-- matchPathParams of request.go: the framework's PathValue is preferred,
falling back to the value captured during placeholder extraction; every
expected path parameter must match. -/
def matchPathParams (req : HttpRequest) : List (String × String) → MatchState →
    Bool × MatchState
  | [], st => (true, st)
  | (key, value) :: rest, st =>
    let pathValue :=
      flowDefault (req.PathValueGet key) (rdGet st.readData (readDataPathParamPrefix ++ key))
    if pathValue != value then
      (false, setMatchLog st ("PATH PARAM [" ++ key ++ "]") value pathValue)
    else matchPathParams req rest st

/-- matchHeaders of request.go: every expected header must equal the
request's header value; matching values are captured. -/
def matchHeaders (req : HttpRequest) : List (String × String) → MatchState →
    Bool × MatchState
  | [], st => (true, st)
  | (key, value) :: rest, st =>
    let actual := req.HeaderGet key
    if actual != value then
      (false, addLog st (noMatchEmoji ++ " HEADER " ++ key ++ " != " ++ value))
    else
      matchHeaders req rest
        { st with readData := st.readData ++ [(readDataHeaderPrefix ++ key, req.HeaderGet key)] }

/-- Display of a body value in a log line (the %s rendering of the
expected body). -/
def bodyValueText : BodyValue → String
  | BodyValue.strVal s => s
  | BodyValue.bytesVal b => b
  | BodyValue.jsonVal j => render j
  | BodyValue.badVal e => e

/-- matchBody of request.go: no expected body is trivially satisfied;
otherwise the request body is read fully.  A read error is logged and
fails the check with the body left unreplaced; after a successful read
the body is replaced with a fresh buffer of the same bytes so it can be
read again, and the bytes are compared against the expected body. -/
def Request.matchBody (r : Request) (st : MatchState) (req : HttpRequest) :
    Bool × MatchState × HttpRequest :=
  match r.Body with
  | none => (true, st, req)
  | some expected =>
    match readAll req.Body with
    | (Except.error e, b1) =>
      (false, addLog st (noMatchEmoji ++ " BODY READ ERROR: " ++ e), { req with Body := b1 })
    | (Except.ok content, _) =>
      let req1 := { req with Body := BodyStream.buf content }
      if compareBody expected content then (true, st, req1)
      else
        (false, addLog st (noMatchEmoji ++ " BODY " ++ content ++ " != " ++ bodyValueText expected),
          req1)

/-- The non-Full outcome of the criterion phase: Partial when the caller
allows partial matching, None otherwise (request.go, tail of match). -/
def nonFull (allowPartialMatch : Bool) (st : MatchState) (req : HttpRequest) :
    RequestMatchLevel × MatchState × HttpRequest :=
  if allowPartialMatch then (RequestMatchLevel.MatchLevelPartial, st, req)
  else (RequestMatchLevel.MatchLevelNone, st, req)

/-- match of request.go: reset the transient state; a method mismatch or
path mismatch is immediately None; then the query, path-parameter,
header and body checks run in order with short-circuit, full success is
Full, any criterion failure is Partial or None by the allow-partial
policy. -/
def Request.matchRequest (r : Request) (req : HttpRequest) (allowPartialMatch : Bool) :
    RequestMatchLevel × MatchState × HttpRequest :=
  let st0 : MatchState := { readData := [], matchLog := [] }
  if r.Method != req.Method then
    (RequestMatchLevel.MatchLevelNone, setMatchLog st0 "METHOD" r.Method req.Method, req)
  else
    let pres := Request.matchPath r req
    let st1 : MatchState := { st0 with readData := pres.2 }
    if !pres.1 then
      (RequestMatchLevel.MatchLevelNone, setMatchLog st1 "PATH" r.Path req.URLPath, req)
    else
      let qres := matchQueryParams req r.QueryParams st1
      if !qres.1 then nonFull allowPartialMatch qres.2 req
      else
        let ppres := matchPathParams req r.PathParams qres.2
        if !ppres.1 then nonFull allowPartialMatch ppres.2 req
        else
          let hres := matchHeaders req r.Headers ppres.2
          if !hres.1 then nonFull allowPartialMatch hres.2 req
          else
            let bres := Request.matchBody r hres.2 req
            if bres.1 then
              (RequestMatchLevel.MatchLevelFull,
                addLog bres.2.1 (matchEmoji ++ " MATCH"), bres.2.2)
            else nonFull allowPartialMatch bres.2.1 bres.2.2

/-- Response definition of one mock (builder.go): status code, optional
body, headers, artificial delay in milliseconds. -/
structure Response where
  Status : Nat
  Body : Option BodyValue
  Headers : List (String × String)
  DelayMs : Int

/-- Outgoing response state of one request: the header map built by Add
calls, the status sent by WriteHeader, and the bytes written. -/
structure ResponseWriter where
  headers : List (String × String)
  statusCode : Option Nat
  bodyWritten : String

/-- strings.EqualFold restricted to the ASCII header names this code
compares. -/
def eqFold (a b : String) : Bool :=
  a.toList.map Char.toLower == b.toList.map Char.toLower

/-- setContentTypeIfNotSet of builder.go: if no header key equals
Content-Type case-insensitively, store the content type into the
response definition's own header map (the receiver is the shared
Response structure). -/
def Response.setContentTypeIfNotSet (r : Response) (contentType : String) : Response :=
  if r.Headers.any (fun kv => eqFold kv.1 "Content-Type") then r
  else { r with Headers := r.Headers ++ [("Content-Type", contentType)] }

/-- json.Marshal over the tagged body model: a structured tree renders to
its JSON text, a bad value yields its marshalling error. -/
def jsonMarshalValue : BodyValue → Except String String
  | BodyValue.strVal s => Except.ok (render (Json.str s))
  | BodyValue.bytesVal b => Except.ok b
  | BodyValue.jsonVal j => Except.ok (render j)
  | BodyValue.badVal e => Except.error e

/-- writeHeaderAndBody of builder.go: decide the body bytes and status
(serialization failure downgrades to 500 with the error text as body;
success on a structured body injects the Content-Type default into the
shared response definition), then add all headers, send the status, and
write the body if non-empty.  The returned Response is the possibly
mutated shared definition. -/
def Response.writeHeaderAndBody (m : Response) (w : ResponseWriter) :
    Response × ResponseWriter :=
  let step : String × Nat × Response :=
    match m.Body with
    | none => ("", m.Status, m)
    | some (BodyValue.strVal s) => (s, m.Status, m)
    | some (BodyValue.bytesVal b) => (b, m.Status, m)
    | some other =>
      match jsonMarshalValue other with
      | Except.error e => (e, 500, m)
      | Except.ok enc => (enc, m.Status, m.setContentTypeIfNotSet "application/json")
  let bodyContent := step.1
  let statusCode := step.2.1
  let m1 := step.2.2
  let w1 := { w with headers := w.headers ++ m1.Headers }
  let w2 := { w1 with statusCode := some statusCode }
  if bodyContent.length > 0 then (m1, { w2 with bodyWritten := w2.bodyWritten ++ bodyContent })
  else (m1, w2)

/-- writeResponse of builder.go: sleep for the configured delay (the
sleep changes no observable state in this model), then write headers and
body. -/
def Response.writeResponse (m : Response) (w : ResponseWriter) : Response × ResponseWriter :=
  Response.writeHeaderAndBody m w

/-- Mock entry: matching criteria, response definition, assertion
bookkeeping keyed by test name, and an optional custom response
handler. -/
structure Mock where
  Name : String
  Request : Request
  Response : Response
  AssertionEnabled : Bool
  ExpectedHits : Nat
  assertionActual : List (String × Nat)
  customHandler : Option (HttpRequest → ResponseWriter → ResponseWriter)

/-- Go map increment: bump the entry for the key, or create it at 1. -/
def bumpCount : List (String × Nat) → String → List (String × Nat)
  | [], t => [(t, 1)]
  | (k, n) :: rest, t =>
    if k == t then (k, n + 1) :: rest else (k, n) :: bumpCount rest t

/-- Go map read with the zero default (the association list keeps its
keys unique). -/
def lookupCount : List (String × Nat) → String → Nat
  | [], _ => 0
  | (k, n) :: rest, t => if k == t then n else lookupCount rest t

/-- RegisterHit of mock.go: a no-op unless assertion is enabled, otherwise
increment the counter keyed by the calling test's name. -/
def Mock.RegisterHit (m : Mock) (tName : String) : Mock :=
  if !m.AssertionEnabled then m
  else { m with assertionActual := bumpCount m.assertionActual tName }

/-- Assert of mock.go: passes trivially when assertion is disabled,
otherwise passes exactly when the counter for the test's name equals the
expected hit count (a failed equality is reported by the test framework,
it does not abort the process; the model returns whether the assertion
passes). -/
def Mock.Assert (m : Mock) (tName : String) : Bool :=
  if !m.AssertionEnabled then true
  else lookupCount m.assertionActual tName == m.ExpectedHits

/-- Modelled from the spec: the concrete Matches method of the Mock entry
is not among the given sources (only the Mocker interface, its callers
and its tests are).  Spec 4.4 step 5 says the global disable flag is
pushed down into the matcher's Partial-versus-None decision, so Matches
forwards the request to the criteria matcher with partial acceptance
allowed exactly when global partial matching is not disabled. -/
def Mock.Matches (m : Mock) (req : HttpRequest) (disablePartialMatch : Bool) :
    RequestMatchLevel × MatchState × HttpRequest :=
  Request.matchRequest m.Request req (!disablePartialMatch)

/-- Modelled from the spec: AcceptsPartialMatch of the Mock entry is not
among the given sources; per the data model it reports this mock's own
allowPartial flag. -/
def Mock.AcceptsPartialMatch (m : Mock) : Bool :=
  m.Request.PartialMatch

/-- Modelled from the spec: WriteResponse of the Mock entry is not among
the given sources; per spec 4.3 it delegates to the registered custom
handler when present and to the response writer otherwise.  The returned
Mock carries the possibly mutated shared response definition. -/
def Mock.WriteResponse (m : Mock) (req : HttpRequest) (w : ResponseWriter) :
    Mock × ResponseWriter :=
  match m.customHandler with
  | some h => (m, h req w)
  | none =>
    let res := Response.writeResponse m.Response w
    ({ m with Response := res.1 }, res.2)

/-- The HTTP verbs the validation tag on Request.Method accepts. -/
def validMethods : List String :=
  ["GET", "POST", "PUT", "DELETE", "PATCH", "HEAD", "OPTIONS"]

/-- Validate of one mock: the declared struct validation tags require the
method to be one of the fixed verbs, the path to be present, and the
response status to lie in 100..599. -/
def Mock.Validate (m : Mock) : Option String :=
  if !(validMethods.contains m.Request.Method) then
    some ("invalid method " ++ m.Request.Method)
  else if m.Request.Path == "" then some "path is required"
  else if m.Response.Status < 100 || 599 < m.Response.Status then
    some "status out of range"
  else none

/-- Mock registry and dispatcher (MockHandler): the ordered mock list,
the pre-response hooks, and the global partial-match policy flag. -/
structure MockHandler where
  mocks : List Mock
  preResponseHooks : List (Mock → ResponseWriter → ResponseWriter)
  disablePartialMatch : Bool

/-- DoPreResponseHook: run every registered hook in order against the
outgoing response. -/
def MockHandler.DoPreResponseHook (s : MockHandler) (m : Mock) (w : ResponseWriter) :
    ResponseWriter :=
  s.preResponseHooks.foldl (fun acc h => h m acc) w

/-- Validate of the handler: no mocks is an error; otherwise every mock's
validation errors are collected and aggregated into one error. -/
def MockHandler.Validate (s : MockHandler) : Option String :=
  if s.mocks.length == 0 then some "no requests found"
  else
    let errs := s.mocks.filterMap Mock.Validate
    if errs.length > 0 then
      some ("invalid requests: " ++ String.intercalate "; " errs)
    else none

/-- The scan loop of ServeHTTP: mocks are tried in order against the
threaded request (whose body buffer each attempt may replace).  A Full
match, or a Partial match the mock accepts, runs the hooks, writes the
response and registers the hit, leaving later mocks untouched; an
unaccepted Partial records the mock as a candidate and continues; None
continues with no bookkeeping.  When the scan ends, candidates give 400,
otherwise 404.  The second component is the final mock list. -/
def serveScan (s : MockHandler) (tName : String) (w : ResponseWriter) :
    List Mock → HttpRequest → List Mock → Bool → ResponseWriter × List Mock
  | [], _, done, anyCandidate =>
    if anyCandidate then ({ w with statusCode := some 400 }, done)
    else ({ w with statusCode := some 404 }, done)
  | m :: rest, req, done, anyCandidate =>
    let mres := Mock.Matches m req s.disablePartialMatch
    match mres.1 with
    | RequestMatchLevel.MatchLevelFull =>
      let w1 := s.DoPreResponseHook m w
      let wres := Mock.WriteResponse m mres.2.2 w1
      (wres.2, done ++ wres.1.RegisterHit tName :: rest)
    | RequestMatchLevel.MatchLevelPartial =>
      if m.AcceptsPartialMatch then
        let w1 := s.DoPreResponseHook m w
        let wres := Mock.WriteResponse m mres.2.2 w1
        (wres.2, done ++ wres.1.RegisterHit tName :: rest)
      else serveScan s tName w rest mres.2.2 (done ++ [m]) true
    | RequestMatchLevel.MatchLevelNone =>
      serveScan s tName w rest mres.2.2 (done ++ [m]) anyCandidate

/-- ServeHTTP of the MockHandler: scan the registered mocks in
registration order for the first usable match. -/
def MockHandler.ServeHTTP (s : MockHandler) (req : HttpRequest) (tName : String)
    (w : ResponseWriter) : ResponseWriter × List Mock :=
  serveScan s tName w s.mocks req [] false

/-- AddMocks of the MockHandler: append the new mocks to the registry and
re-validate the full merged set, returning the aggregated validation
error; the appended entries are not rolled back on error. -/
def MockHandler.AddMocks (s : MockHandler) (ms : List Mock) : MockHandler × Option String :=
  let s1 := { s with mocks := s.mocks ++ ms }
  (s1, s1.Validate)

/-- Spec-worded segment predicate for the path stage (refinement side of
the placeholder-path claim): segment lists must have equal shape and
every non-placeholder template segment must equal the request segment. -/
def pathSpecSegsOk : List String → List String → Bool
  | [], [] => true
  | mp :: ms, rp :: rs => (isPlaceholderSeg mp || mp == rp) && pathSpecSegsOk ms rs
  | _, _ => false

/-- Spec-worded capture list for the path stage: each placeholder segment
captures the corresponding request segment's literal text under the
placeholder's namespaced name. -/
def pathSpecCaptures (ms rs : List String) : List (String × String) :=
  (ms.zip rs).filterMap fun p =>
    if isPlaceholderSeg p.1 then some (readDataPathParamPrefix ++ trimCurlies p.1, p.2)
    else none

/-- The level a non-Full outcome falls to when partial acceptance is
turned off. -/
def demoteNonFull : RequestMatchLevel → RequestMatchLevel
  | RequestMatchLevel.MatchLevelPartial => RequestMatchLevel.MatchLevelNone
  | l => l

/-- Is every mock of the list non-terminal for the request — yielding
None, or Partial while its own flag refuses partial matches (an
unaccepted candidate the scan records and walks past) — threading the
request state (body re-buffering) from one attempt to the next? -/
def scanNonTerminal (disable : Bool) : List Mock → HttpRequest → Bool
  | [], _ => true
  | m :: rest, req =>
    match Mock.Matches m req disable with
    | (RequestMatchLevel.MatchLevelNone, _, req1) => scanNonTerminal disable rest req1
    | (RequestMatchLevel.MatchLevelPartial, _, req1) =>
      !m.AcceptsPartialMatch && scanNonTerminal disable rest req1
    | _ => false

/-- The request state after the listed mocks' match attempts ran against
it in order. -/
def threadReq (disable : Bool) : List Mock → HttpRequest → HttpRequest
  | [], req => req
  | m :: rest, req => threadReq disable rest (Mock.Matches m req disable).2.2

/-- The constantly empty lookup, for sample requests with no query,
headers or framework path values. -/
def constEmpty : String → String := fun _ => ""

/-- Sample request: GET /health with empty body. -/
def sampleGetHealth : HttpRequest :=
  { Method := "GET", URLPath := "/health", QueryGet := constEmpty,
    HeaderGet := constEmpty, PathValueGet := constEmpty, Body := BodyStream.buf "" }

/-- Sample request: POST /orders with no headers and empty body. -/
def samplePostOrders : HttpRequest :=
  { Method := "POST", URLPath := "/orders", QueryGet := constEmpty,
    HeaderGet := constEmpty, PathValueGet := constEmpty, Body := BodyStream.buf "" }

/-- Sample response definition: plain 200 with no body. -/
def sampleOkResponse : Response :=
  { Status := 200, Body := none, Headers := [], DelayMs := 0 }

/-- Sample mock: POST /orders requiring an Api-Key header, not accepting
partial matches. -/
def sampleOrdersMock : Mock :=
  { Name := "orders",
    Request := { Method := "POST", Path := "/orders", QueryParams := [],
                 PathParams := [], Headers := [("Api-Key", "secret")],
                 Body := none, PartialMatch := false },
    Response := sampleOkResponse,
    AssertionEnabled := false, ExpectedHits := 0, assertionActual := [],
    customHandler := none }

/-- Sample mock: GET /health answering 200 OK. -/
def sampleHealthMock : Mock :=
  { Name := "health",
    Request := { Method := "GET", Path := "/health", QueryParams := [],
                 PathParams := [], Headers := [], Body := none, PartialMatch := false },
    Response := { Status := 200, Body := some (BodyValue.strVal "OK"),
                  Headers := [], DelayMs := 0 },
    AssertionEnabled := false, ExpectedHits := 0, assertionActual := [],
    customHandler := none }

/-- Sample invalid mock: its method GETCH is outside the allowed verb
set, mirroring the repository's own validation test. -/
def sampleInvalidMock : Mock :=
  { Name := "invalid_request",
    Request := { Method := "GETCH", Path := "/api/v1/users/123", QueryParams := [],
                 PathParams := [], Headers := [], Body := none, PartialMatch := false },
    Response := sampleOkResponse,
    AssertionEnabled := false, ExpectedHits := 0, assertionActual := [],
    customHandler := none }

/-- Sample mock with assertion enabled and three expected hits. -/
def sampleAssertMock : Mock :=
  { Name := "asserted",
    Request := { Method := "GET", Path := "/health", QueryParams := [],
                 PathParams := [], Headers := [], Body := none, PartialMatch := false },
    Response := sampleOkResponse,
    AssertionEnabled := true, ExpectedHits := 3, assertionActual := [],
    customHandler := none }

/-- Sample fresh response writer. -/
def freshWriter : ResponseWriter :=
  { headers := [], statusCode := none, bodyWritten := "" }

/-- Sample response definition with a structured body and no headers. -/
def sampleJsonResponse : Response :=
  { Status := 200, Body := some (BodyValue.jsonVal (Json.obj [])), Headers := [],
    DelayMs := 0 }

/-- Sample response definition whose body's marshalling fails, mirroring
the repository's badMarshaler test double. -/
def sampleBadResponse : Response :=
  { Status := 200, Body := some (BodyValue.badVal "marshal error"), Headers := [],
    DelayMs := 0 }

/-- Sample criteria expecting a literal body. -/
def sampleBodyRequest : Request :=
  { Method := "POST", Path := "/orders", QueryParams := [], PathParams := [],
    Headers := [], Body := some (BodyValue.strVal "x"), PartialMatch := false }

/-- Iterated hit registration under one test identity. -/
def registerHits (m : Mock) (tName : String) : Nat → Mock
  | 0 => m
  | n + 1 => Mock.RegisterHit (registerHits m tName n) tName

/-- Sample criteria with a placeholder path template. -/
def samplePlaceholderCriteria : Request :=
  { Method := "GET", Path := "/users/\x7bid\x7d", QueryParams := [], PathParams := [],
    Headers := [], Body := none, PartialMatch := false }

/-- Sample request whose path instantiates the placeholder with 123. -/
def sampleUsers123Req : HttpRequest :=
  { sampleGetHealth with URLPath := "/users/123" }

/-- Sample mock fully matching any POST /orders request: no criteria
beyond method and path. -/
def samplePostOrdersMock : Mock :=
  { Name := "orders_any",
    Request := { Method := "POST", Path := "/orders", QueryParams := [],
                 PathParams := [], Headers := [], Body := none, PartialMatch := false },
    Response := sampleOkResponse,
    AssertionEnabled := false, ExpectedHits := 0, assertionActual := [],
    customHandler := none }

/-- With partial acceptance turned off the matcher returns exactly the
demoted level of the run with acceptance turned on, with identical
captured state and threaded request: the two runs take the same branches
everywhere, the flag is read only at the very end. -/
theorem matchRequest_false_eq_demote (r : Request) (req : HttpRequest) :
    Request.matchRequest r req false =
      (demoteNonFull (Request.matchRequest r req true).1,
       (Request.matchRequest r req true).2) := by
  simp only [Request.matchRequest, nonFull]
  split_ifs <;> first
  | rfl
  | exact (by assumption : False).elim

/-- The demoted level is never Partial. -/
theorem demoteNonFull_ne_partialLevel (l : RequestMatchLevel) :
    demoteNonFull l ≠ RequestMatchLevel.MatchLevelPartial := by
  cases l <;> simp [demoteNonFull]

/-- C5: whenever the criteria method and the request method differ, the
matcher returns None for either value of the allow-partial flag, and
nothing else is checked: the whole result is exactly the initial state
with the single METHOD diagnostic line, no captured data, and the
request untouched (its body never read). -/
theorem matchRequest_method_mismatch (r : Request) (req : HttpRequest) (allow : Bool)
    (h : r.Method ≠ req.Method) :
    Request.matchRequest r req allow =
      (RequestMatchLevel.MatchLevelNone,
       setMatchLog { readData := [], matchLog := [] } "METHOD" r.Method req.Method, req) := by
  have hb : (r.Method != req.Method) = true := bne_iff_ne.mpr h
  simp [Request.matchRequest, hb]

/-- Witness for the method-mismatch theorem at a concrete verb pair. -/
theorem matchRequest_method_mismatch_witness :
    sampleOrdersMock.Request.Method ≠ sampleGetHealth.Method ∧
    Request.matchRequest sampleOrdersMock.Request sampleGetHealth true =
      (RequestMatchLevel.MatchLevelNone,
       setMatchLog { readData := [], matchLog := [] } "METHOD"
         sampleOrdersMock.Request.Method sampleGetHealth.Method, sampleGetHealth) :=
  ⟨by decide, matchRequest_method_mismatch _ _ true (by decide)⟩

/-- C1: for a mock refusing partial matches and a request that matches
its method and path but fails a later criterion (exactly the scenario in
which the matcher with partial acceptance answers Partial): with global
partial matching enabled the dispatcher lists the mock as a candidate
and answers 400; with global partial matching disabled the matcher
itself already answers None, so the dispatcher answers 404 and the
candidate branch is never reached. -/
theorem dispatch_partial_policy (m : Mock) (req : HttpRequest)
    (hooks : List (Mock → ResponseWriter → ResponseWriter))
    (tName : String) (w : ResponseWriter)
    (hpm : m.Request.PartialMatch = false)
    (hpart : (Request.matchRequest m.Request req true).1 =
      RequestMatchLevel.MatchLevelPartial) :
    (Request.matchRequest m.Request req false).1 = RequestMatchLevel.MatchLevelNone ∧
    (MockHandler.ServeHTTP
        { mocks := [m], preResponseHooks := hooks, disablePartialMatch := false }
        req tName w).1.statusCode = some 400 ∧
    (MockHandler.ServeHTTP
        { mocks := [m], preResponseHooks := hooks, disablePartialMatch := true }
        req tName w).1.statusCode = some 404 := by
  have hfalse : Request.matchRequest m.Request req false =
      (demoteNonFull (Request.matchRequest m.Request req true).1,
       (Request.matchRequest m.Request req true).2) :=
    matchRequest_false_eq_demote m.Request req
  refine ⟨?_, ?_, ?_⟩
  · rw [hfalse, hpart]
    rfl
  · simp only [MockHandler.ServeHTTP, serveScan, Mock.Matches, Bool.not_false]
    rw [hpart]
    simp [Mock.AcceptsPartialMatch, hpm, serveScan]
  · simp only [MockHandler.ServeHTTP, serveScan, Mock.Matches, Bool.not_true]
    rw [hfalse, hpart]
    simp [demoteNonFull, serveScan]

/-- Witness for the partial-policy theorem: the POST /orders mock with a
required Api-Key header against a POST /orders request carrying no
headers. -/
theorem dispatch_partial_policy_witness :
    sampleOrdersMock.Request.PartialMatch = false ∧
    (Request.matchRequest sampleOrdersMock.Request samplePostOrders true).1 =
      RequestMatchLevel.MatchLevelPartial ∧
    (MockHandler.ServeHTTP
        { mocks := [sampleOrdersMock], preResponseHooks := [], disablePartialMatch := false }
        samplePostOrders "t" freshWriter).1.statusCode = some 400 ∧
    (MockHandler.ServeHTTP
        { mocks := [sampleOrdersMock], preResponseHooks := [], disablePartialMatch := true }
        samplePostOrders "t" freshWriter).1.statusCode = some 404 :=
  ⟨by decide, by decide,
    (dispatch_partial_policy sampleOrdersMock samplePostOrders [] "t" freshWriter
      (by decide) (by decide)).2.1,
    (dispatch_partial_policy sampleOrdersMock samplePostOrders [] "t" freshWriter
      (by decide) (by decide)).2.2⟩

/-- C3 evaluation at the failing input: writing a response whose body is
a structured (JSON) value stores the implicit Content-Type default into
the shared Response definition's own header map — the definition
returned by the writer differs from the original definition, whose
header map was empty — instead of confining it to the outgoing
per-response copy. -/
theorem writeHeaderAndBody_mutates_shared_definition :
    sampleJsonResponse.Headers = [] ∧
    (Response.writeHeaderAndBody sampleJsonResponse freshWriter).1.Headers =
      [("Content-Type", "application/json")] ∧
    (Response.writeHeaderAndBody sampleJsonResponse freshWriter).2.headers =
      [("Content-Type", "application/json")] := by
  refine ⟨rfl, ?_, ?_⟩ <;> decide

/-- C8: when the configured body value fails serialization, the writer
sends status 500 instead of the configured status and the body written
is the serialization error's text; the writer is a total function, the
failure never escapes it. -/
theorem writeHeaderAndBody_marshal_failure (m : Response) (w : ResponseWriter) (e : String)
    (hb : m.Body = some (BodyValue.badVal e)) :
    (m.writeHeaderAndBody w).2.statusCode = some 500 ∧
    (m.writeHeaderAndBody w).2.bodyWritten =
      (if 0 < e.length then w.bodyWritten ++ e else w.bodyWritten) := by
  simp only [Response.writeHeaderAndBody, hb, jsonMarshalValue]
  split_ifs <;> simp_all

/-- Witness for the serialization-failure theorem at the repository's own
badMarshaler error text, with a configured status of 200. -/
theorem writeHeaderAndBody_marshal_failure_witness :
    sampleBadResponse.Body = some (BodyValue.badVal "marshal error") ∧
    ((sampleBadResponse.writeHeaderAndBody freshWriter).2.statusCode = some 500 ∧
     (sampleBadResponse.writeHeaderAndBody freshWriter).2.bodyWritten =
       (if 0 < "marshal error".length then freshWriter.bodyWritten ++ "marshal error"
        else freshWriter.bodyWritten)) :=
  ⟨rfl, writeHeaderAndBody_marshal_failure sampleBadResponse freshWriter "marshal error" rfl⟩

/-- C4: AddMocks appends the new entries and returns the validation
outcome of the full merged set; when that validation fails the
aggregated error is returned to the caller while the appended entries
remain in the registry, and every dispatch over the post-append handler
scans exactly the merged list. -/
theorem addMocks_no_rollback (s : MockHandler) (ms : List Mock)
    (hbad : (MockHandler.Validate { s with mocks := s.mocks ++ ms }).isSome = true) :
    (s.AddMocks ms).1.mocks = s.mocks ++ ms ∧
    (s.AddMocks ms).2 = MockHandler.Validate { s with mocks := s.mocks ++ ms } ∧
    (s.AddMocks ms).2.isSome = true ∧
    ∀ req tName w,
      MockHandler.ServeHTTP (s.AddMocks ms).1 req tName w =
        serveScan { s with mocks := s.mocks ++ ms } tName w (s.mocks ++ ms) req [] false :=
  ⟨rfl, rfl, hbad, fun _ _ _ => rfl⟩

/-- Witness for the append-without-rollback theorem: a valid health mock
joined by the invalid GETCH mock. -/
theorem addMocks_no_rollback_witness :
    (MockHandler.Validate
        { mocks := [sampleHealthMock] ++ [sampleInvalidMock], preResponseHooks := [],
          disablePartialMatch := false }).isSome = true ∧
    (MockHandler.AddMocks
        { mocks := [sampleHealthMock], preResponseHooks := [], disablePartialMatch := false }
        [sampleInvalidMock]).1.mocks = [sampleHealthMock] ++ [sampleInvalidMock] ∧
    (MockHandler.AddMocks
        { mocks := [sampleHealthMock], preResponseHooks := [], disablePartialMatch := false }
        [sampleInvalidMock]).2.isSome = true :=
  ⟨by decide,
    (addMocks_no_rollback
      { mocks := [sampleHealthMock], preResponseHooks := [], disablePartialMatch := false }
      [sampleInvalidMock] (by decide)).1,
    (addMocks_no_rollback
      { mocks := [sampleHealthMock], preResponseHooks := [], disablePartialMatch := false }
      [sampleInvalidMock] (by decide)).2.2.1⟩

/-- Incrementing a counter map raises the bumped key's count by one. -/
theorem bumpCount_self (l : List (String × Nat)) (t : String) :
    lookupCount (bumpCount l t) t = lookupCount l t + 1 := by
  induction l with
  | nil => simp [bumpCount, lookupCount]
  | cons p rest ih =>
    obtain ⟨k, n⟩ := p
    by_cases hk : (k == t) = true
    · simp [bumpCount, lookupCount, hk]
    · simp [bumpCount, lookupCount, hk, ih]

/-- Incrementing a counter map leaves every other key's count alone. -/
theorem bumpCount_lookup_ne (l : List (String × Nat)) (t u : String) (h : u ≠ t) :
    lookupCount (bumpCount l t) u = lookupCount l u := by
  induction l with
  | nil =>
    have ht : (t == u) = false := beq_eq_false_iff_ne.mpr (Ne.symm h)
    simp [bumpCount, lookupCount, ht]
  | cons p rest ih =>
    obtain ⟨k, n⟩ := p
    by_cases hk : (k == t) = true
    · have hkt : k = t := by simpa using hk
      have hku : (k == u) = false := by
        subst hkt
        exact beq_eq_false_iff_ne.mpr (Ne.symm h)
      simp [bumpCount, lookupCount, hk, hku]
    · simp [bumpCount, lookupCount, hk, ih]

/-- Iterated registration changes neither the assertion flag nor the
expected hit count. -/
theorem registerHits_fields (m : Mock) (t : String) (n : Nat) :
    (registerHits m t n).AssertionEnabled = m.AssertionEnabled ∧
    (registerHits m t n).ExpectedHits = m.ExpectedHits := by
  induction n with
  | zero => exact ⟨rfl, rfl⟩
  | succ n ih =>
    constructor <;> simp only [registerHits, Mock.RegisterHit] <;> split_ifs <;>
      simp [ih.1, ih.2]

/-- With assertion enabled, n registrations under one test identity add
exactly n to that identity's counter. -/
theorem registerHits_count (m : Mock) (t : String) (he : m.AssertionEnabled = true)
    (n : Nat) :
    lookupCount (registerHits m t n).assertionActual t =
      lookupCount m.assertionActual t + n := by
  induction n with
  | zero => simp [registerHits]
  | succ n ih =>
    have hen : (registerHits m t n).AssertionEnabled = true :=
      (registerHits_fields m t n).1.trans he
    simp only [registerHits, Mock.RegisterHit, hen, Bool.not_true, Bool.false_eq_true,
      if_false]
    simp [bumpCount_self, ih]
    omega

/-- C9: hit registration is a no-op when assertion is disabled; when
enabled it raises exactly the calling test identity's counter by one and
no other, and the assertion for that identity then passes exactly when
the counter equals the expected hit count: starting from empty counters,
ExpectedHits registrations pass and one fewer fails (the failure is a
reported boolean outcome, not an abort, the model being total). -/
theorem registerHit_assert_semantics (m : Mock) (tName : String) :
    (m.AssertionEnabled = false → m.RegisterHit tName = m) ∧
    (m.AssertionEnabled = true →
      lookupCount (m.RegisterHit tName).assertionActual tName =
        lookupCount m.assertionActual tName + 1 ∧
      ∀ u, u ≠ tName →
        lookupCount (m.RegisterHit tName).assertionActual u =
          lookupCount m.assertionActual u) ∧
    (m.AssertionEnabled = true → m.assertionActual = [] →
      Mock.Assert (registerHits m tName m.ExpectedHits) tName = true ∧
      (0 < m.ExpectedHits →
        Mock.Assert (registerHits m tName (m.ExpectedHits - 1)) tName = false)) := by
  refine ⟨fun h => ?_, fun he => ⟨?_, fun u hu => ?_⟩, fun he h0 => ⟨?_, fun hpos => ?_⟩⟩
  · simp [Mock.RegisterHit, h]
  · simp [Mock.RegisterHit, he, bumpCount_self]
  · simp [Mock.RegisterHit, he, bumpCount_lookup_ne _ _ _ hu]
  · have hen : (registerHits m tName m.ExpectedHits).AssertionEnabled = true :=
      (registerHits_fields m tName m.ExpectedHits).1.trans he
    have hc := registerHits_count m tName he m.ExpectedHits
    rw [h0] at hc
    simp only [lookupCount, Nat.zero_add] at hc
    simp [Mock.Assert, hen, hc, (registerHits_fields m tName m.ExpectedHits).2]
  · have hen : (registerHits m tName (m.ExpectedHits - 1)).AssertionEnabled = true :=
      (registerHits_fields m tName (m.ExpectedHits - 1)).1.trans he
    have hc := registerHits_count m tName he (m.ExpectedHits - 1)
    rw [h0] at hc
    simp only [lookupCount, Nat.zero_add] at hc
    simp only [Mock.Assert, hen, Bool.not_true, Bool.false_eq_true, if_false, hc,
      (registerHits_fields m tName (m.ExpectedHits - 1)).2]
    simp only [beq_eq_false_iff_ne]
    omega

/-- Witness for the hit-counting theorem: three expected hits, three
registrations pass, two fail. -/
theorem registerHit_assert_semantics_witness :
    sampleAssertMock.AssertionEnabled = true ∧
    sampleAssertMock.assertionActual = [] ∧
    Mock.Assert (registerHits sampleAssertMock "t" sampleAssertMock.ExpectedHits) "t" =
      true ∧
    Mock.Assert (registerHits sampleAssertMock "t" (sampleAssertMock.ExpectedHits - 1))
      "t" = false :=
  ⟨rfl, rfl,
    ((registerHit_assert_semantics sampleAssertMock "t").2.2 rfl rfl).1,
    ((registerHit_assert_semantics sampleAssertMock "t").2.2 rfl rfl).2 (by decide)⟩

/-- C10: body re-buffering is asymmetric across matchBody's two failure
paths.  When the body reads successfully, the request leaves the check
with its body replaced by a buffer of the same bytes whatever the
comparison decides; when the read itself errors, the check fails and the
body is not re-buffered, the stream staying in its erroring state. -/
theorem matchBody_rebuffer_asymmetry (r : Request) (st : MatchState) (req : HttpRequest)
    (bv : BodyValue) (hb : r.Body = some bv) :
    (∀ c, req.Body = BodyStream.buf c →
      (Request.matchBody r st req).2.2.Body = BodyStream.buf c) ∧
    (∀ e, req.Body = BodyStream.err e →
      (Request.matchBody r st req).1 = false ∧
      (Request.matchBody r st req).2.2.Body = BodyStream.err e) := by
  constructor
  · intro c hc
    simp only [Request.matchBody, hb, hc, readAll]
    split <;> rfl
  · intro e he
    simp [Request.matchBody, hb, he, readAll]

/-- Witness for the re-buffering theorem: a failing comparison still
re-buffers the read bytes, while a read error leaves the erroring
stream in place. -/
theorem matchBody_rebuffer_asymmetry_witness :
    sampleBodyRequest.Body = some (BodyValue.strVal "x") ∧
    (Request.matchBody sampleBodyRequest { readData := [], matchLog := [] }
        { samplePostOrders with Body := BodyStream.buf "abc" }).1 = false ∧
    (Request.matchBody sampleBodyRequest { readData := [], matchLog := [] }
        { samplePostOrders with Body := BodyStream.buf "abc" }).2.2.Body =
      BodyStream.buf "abc" ∧
    (Request.matchBody sampleBodyRequest { readData := [], matchLog := [] }
        { samplePostOrders with Body := BodyStream.err "boom" }).1 = false ∧
    (Request.matchBody sampleBodyRequest { readData := [], matchLog := [] }
        { samplePostOrders with Body := BodyStream.err "boom" }).2.2.Body =
      BodyStream.err "boom" :=
  ⟨rfl, rfl,
    (matchBody_rebuffer_asymmetry sampleBodyRequest { readData := [], matchLog := [] }
      { samplePostOrders with Body := BodyStream.buf "abc" } (BodyValue.strVal "x")
      rfl).1 "abc" rfl,
    ((matchBody_rebuffer_asymmetry sampleBodyRequest { readData := [], matchLog := [] }
      { samplePostOrders with Body := BodyStream.err "boom" } (BodyValue.strVal "x")
      rfl).2 "boom" rfl).1,
    ((matchBody_rebuffer_asymmetry sampleBodyRequest { readData := [], matchLog := [] }
      { samplePostOrders with Body := BodyStream.err "boom" } (BodyValue.strVal "x")
      rfl).2 "boom" rfl).2⟩

/-- C7: structured body comparison is key-order and whitespace
independent — whenever the expected value's wire encoding and the
request bytes decode to trees with the same canonical form, compareBody
answers true; and a decode failure on the request side, or a marshalling
failure on the expected side, makes it answer false rather than
erroring (the function is total). -/
theorem compareBody_canonicalization (j je jb : Json) (b : String)
    (h1 : jsonParse (render j) = Except.ok je)
    (h2 : jsonParse b = Except.ok jb)
    (h3 : sortJson je = sortJson jb) :
    compareBody (BodyValue.jsonVal j) b = true ∧
    (∀ b2 e, jsonParse b2 = Except.error e →
      compareBody (BodyValue.jsonVal j) b2 = false) ∧
    (∀ e2, compareBody (BodyValue.badVal e2) b = false) := by
  refine ⟨?_, fun b2 e hErr => ?_, fun e2 => ?_⟩
  · simp [compareBody, marshalSorted, marshalSortedVia, marshalSortedOfBytes, h1, h2, h3]
  · cases hx : marshalSorted (BodyValue.jsonVal j) <;>
      simp [compareBody, hx, marshalSortedOfBytes, hErr]
  · simp [compareBody, marshalSorted]

/-- Witness for the canonicalization theorem at the spec's own example:
expected object a:1,b:2 against wire bytes listing b first. -/
theorem compareBody_canonicalization_witness :
    jsonParse (render (Json.obj [("a", Json.num 1), ("b", Json.num 2)])) =
      Except.ok (Json.obj [("a", Json.num 1), ("b", Json.num 2)]) ∧
    jsonParse "\x7b\"b\":2,\"a\":1\x7d" =
      Except.ok (Json.obj [("b", Json.num 2), ("a", Json.num 1)]) ∧
    sortJson (Json.obj [("a", Json.num 1), ("b", Json.num 2)]) =
      sortJson (Json.obj [("b", Json.num 2), ("a", Json.num 1)]) ∧
    compareBody (BodyValue.jsonVal (Json.obj [("a", Json.num 1), ("b", Json.num 2)]))
      "\x7b\"b\":2,\"a\":1\x7d" = true :=
  ⟨rfl, rfl, rfl,
    (compareBody_canonicalization (Json.obj [("a", Json.num 1), ("b", Json.num 2)])
      (Json.obj [("a", Json.num 1), ("b", Json.num 2)])
      (Json.obj [("b", Json.num 2), ("a", Json.num 1)])
      "\x7b\"b\":2,\"a\":1\x7d" rfl rfl rfl).1⟩

/-- The segment loop decides exactly the spec-worded segment predicate. -/
theorem matchPathSegs_fst (ms : List String) (ss : List String)
    (acc : List (String × String)) :
    (matchPathSegs ms ss acc).1 = pathSpecSegsOk ms ss := by
  induction ms generalizing ss acc with
  | nil => cases ss <;> simp [matchPathSegs, pathSpecSegsOk]
  | cons mp ms ih =>
    cases ss with
    | nil => simp [matchPathSegs, pathSpecSegsOk]
    | cons rp rs =>
      by_cases hpl : isPlaceholderSeg mp = true
      · simp [matchPathSegs, pathSpecSegsOk, hpl, ih]
      · by_cases heq : (mp == rp) = true
        · simp [matchPathSegs, pathSpecSegsOk, hpl, heq, ih]
        · simp [matchPathSegs, pathSpecSegsOk, hpl, heq]

/-- On success the segment loop's captures are exactly the spec-worded
capture list appended to the accumulator. -/
theorem matchPathSegs_captures (ms : List String) (ss : List String)
    (acc : List (String × String)) :
    (matchPathSegs ms ss acc).1 = true →
    (matchPathSegs ms ss acc).2 = acc ++ pathSpecCaptures ms ss := by
  induction ms generalizing ss acc with
  | nil =>
    cases ss with
    | nil => simp [matchPathSegs, pathSpecCaptures]
    | cons rp rs => simp [matchPathSegs]
  | cons mp ms ih =>
    cases ss with
    | nil => simp [matchPathSegs]
    | cons rp rs =>
      by_cases hpl : isPlaceholderSeg mp = true
      · intro h
        rw [matchPathSegs] at h ⊢
        simp only [hpl, if_true] at h ⊢
        rw [ih _ _ h]
        simp [pathSpecCaptures, hpl]
      · by_cases heq : (mp == rp) = true
        · intro h
          rw [matchPathSegs] at h ⊢
          simp only [hpl, heq, Bool.false_eq_true, if_false, if_true] at h ⊢
          rw [ih _ _ h]
          simp [pathSpecCaptures, hpl]
        · simp [matchPathSegs, hpl, heq]

/-- C6: for a placeholder path template, the path stage succeeds exactly
when both paths split into equally many segments and every
non-placeholder segment matches literally (placeholder segments always
match); on success the captured data is exactly the placeholder names
mapped to the corresponding request segments' literal text; and a path
failure makes the whole match None for either policy flag. -/
theorem matchPath_placeholder_spec (r : Request) (req : HttpRequest)
    (hpl : containsChar r.Path '{' = true) :
    ((Request.matchPath r req).1 = true ↔
      ((splitOnSlash r.Path).length = (splitOnSlash req.URLPath).length ∧
       pathSpecSegsOk (splitOnSlash r.Path) (splitOnSlash req.URLPath) = true)) ∧
    ((Request.matchPath r req).1 = true →
      (Request.matchPath r req).2 =
        pathSpecCaptures (splitOnSlash r.Path) (splitOnSlash req.URLPath)) ∧
    ((Request.matchPath r req).1 = false →
      ∀ allow, (Request.matchRequest r req allow).1 =
        RequestMatchLevel.MatchLevelNone) := by
  have hsplit : Request.matchPath r req =
      (if (splitOnSlash r.Path).length != (splitOnSlash req.URLPath).length then (false, [])
       else matchPathSegs (splitOnSlash r.Path) (splitOnSlash req.URLPath) []) := by
    simp [Request.matchPath, hpl]
  refine ⟨?_, ?_, ?_⟩
  · rw [hsplit]
    by_cases hlen : (splitOnSlash r.Path).length = (splitOnSlash req.URLPath).length
    · simp [hlen, matchPathSegs_fst]
    · simp [bne_iff_ne.mpr hlen, hlen]
  · rw [hsplit]
    by_cases hlen : (splitOnSlash r.Path).length = (splitOnSlash req.URLPath).length
    · simp only [bne_self_eq_false, hlen, bne_iff_ne, ne_eq, not_true_eq_false,
        Bool.false_eq_true, if_false]
      intro h
      simpa using matchPathSegs_captures _ _ [] h
    · simp [bne_iff_ne.mpr hlen]
  · intro hf allow
    by_cases hm : (r.Method != req.Method) = true
    · simp [Request.matchRequest, hm]
    · simp [Request.matchRequest, hm, hf]

/-- Witness for the placeholder-path theorem: template /users/(id) against
path /users/123 captures id as 123. -/
theorem matchPath_placeholder_spec_witness :
    containsChar samplePlaceholderCriteria.Path '{' = true ∧
    (Request.matchPath samplePlaceholderCriteria sampleUsers123Req).1 = true ∧
    (Request.matchPath samplePlaceholderCriteria sampleUsers123Req).2 =
      pathSpecCaptures (splitOnSlash samplePlaceholderCriteria.Path)
        (splitOnSlash sampleUsers123Req.URLPath) ∧
    (Request.matchPath samplePlaceholderCriteria sampleUsers123Req).2 =
      [(readDataPathParamPrefix ++ "id", "123")] :=
  ⟨by decide, by decide,
    (matchPath_placeholder_spec samplePlaceholderCriteria sampleUsers123Req
      (by decide)).2.1 (by decide),
    by decide⟩

/-- A block of non-terminal mocks — each yielding None, or Partial while
refusing partial matches — is scanned through without writing anything:
the scan continues past them with the threaded request and the block
moved unchanged into the processed accumulator; only the candidate flag
may change, recording the walked-past candidates. -/
theorem serveScan_skip_nonterminal (s : MockHandler) (tName : String) (w : ResponseWriter)
    (pre tail : List Mock) (req : HttpRequest) (done : List Mock) (flag : Bool)
    (h : scanNonTerminal s.disablePartialMatch pre req = true) :
    ∃ flag', serveScan s tName w (pre ++ tail) req done flag =
      serveScan s tName w tail (threadReq s.disablePartialMatch pre req) (done ++ pre)
        flag' := by
  induction pre generalizing req done flag with
  | nil => exact ⟨flag, by simp [threadReq]⟩
  | cons m pre ih =>
    rcases hm : Mock.Matches m req s.disablePartialMatch with ⟨lv, st, req1⟩
    rw [scanNonTerminal, hm] at h
    cases lv with
    | MatchLevelNone =>
      have hrec : scanNonTerminal s.disablePartialMatch pre req1 = true := h
      obtain ⟨flag', heq⟩ := ih req1 (done ++ [m]) flag hrec
      refine ⟨flag', ?_⟩
      rw [List.cons_append, serveScan, hm, heq, threadReq, hm]
      simp [List.append_assoc]
    | MatchLevelPartial =>
      simp only [Bool.and_eq_true, Bool.not_eq_true'] at h
      obtain ⟨hacc, hrec⟩ := h
      obtain ⟨flag', heq⟩ := ih req1 (done ++ [m]) true hrec
      refine ⟨flag', ?_⟩
      rw [List.cons_append, serveScan, hm]
      simp only [hacc, Bool.false_eq_true, if_false]
      rw [heq, threadReq, hm]
      simp [List.append_assoc]
    | MatchLevelFull => simp at h

/-- C2: within one dispatch the mocks are tried in strict registration
order and the first terminal outcome — Full, or Partial accepted by the
mock's own flag — wins: the pre-response hooks run against the outgoing
response, the winning mock's response is written, its hit is registered
under the calling test identity, every mock before it (each of which
yielded None, or an unaccepted Partial the scan recorded as a candidate
and walked past) is left untouched in the registry, and no mock after it
is evaluated — the result does not depend on the tail at all. -/
theorem serveHTTP_first_terminal_wins (s : MockHandler) (pre post : List Mock) (m : Mock)
    (req : HttpRequest) (w : ResponseWriter) (tName : String)
    (hmocks : s.mocks = pre ++ m :: post)
    (hpre : scanNonTerminal s.disablePartialMatch pre req = true)
    (hterm :
      (Mock.Matches m (threadReq s.disablePartialMatch pre req) s.disablePartialMatch).1 =
        RequestMatchLevel.MatchLevelFull ∨
      ((Mock.Matches m (threadReq s.disablePartialMatch pre req)
          s.disablePartialMatch).1 = RequestMatchLevel.MatchLevelPartial ∧
        m.AcceptsPartialMatch = true)) :
    MockHandler.ServeHTTP s req tName w =
      ((Mock.WriteResponse m
          (Mock.Matches m (threadReq s.disablePartialMatch pre req)
            s.disablePartialMatch).2.2
          (s.DoPreResponseHook m w)).2,
       pre ++
         (Mock.WriteResponse m
            (Mock.Matches m (threadReq s.disablePartialMatch pre req)
              s.disablePartialMatch).2.2
            (s.DoPreResponseHook m w)).1.RegisterHit tName :: post) := by
  obtain ⟨flag', heq⟩ :=
    serveScan_skip_nonterminal s tName w pre (m :: post) req [] false hpre
  rw [MockHandler.ServeHTTP, hmocks, heq]
  rcases hm : Mock.Matches m (threadReq s.disablePartialMatch pre req)
      s.disablePartialMatch with ⟨lv, st, req1⟩
  rw [hm] at hterm
  rw [serveScan, hm]
  rcases hterm with hF | ⟨hP, hacc⟩
  · simp only at hF
    subst hF
    simp
  · simp only at hP
    subst hP
    simp [hacc]

/-- Witness for the first-terminal-match theorem: the orders mock with
its missing Api-Key header is an unaccepted Partial candidate the scan
walks past, the criterion-free orders mock then matches fully, and a
tail mock is never evaluated. -/
theorem serveHTTP_first_terminal_wins_witness :
    scanNonTerminal false [sampleOrdersMock] samplePostOrders = true ∧
    (Mock.Matches sampleOrdersMock samplePostOrders false).1 =
      RequestMatchLevel.MatchLevelPartial ∧
    sampleOrdersMock.AcceptsPartialMatch = false ∧
    (Mock.Matches samplePostOrdersMock (threadReq false [sampleOrdersMock] samplePostOrders)
      false).1 = RequestMatchLevel.MatchLevelFull ∧
    MockHandler.ServeHTTP
        { mocks := [sampleOrdersMock, samplePostOrdersMock, sampleInvalidMock],
          preResponseHooks := [], disablePartialMatch := false }
        samplePostOrders "t" freshWriter =
      ((Mock.WriteResponse samplePostOrdersMock
          (Mock.Matches samplePostOrdersMock
            (threadReq false [sampleOrdersMock] samplePostOrders) false).2.2
          (MockHandler.DoPreResponseHook
            { mocks := [sampleOrdersMock, samplePostOrdersMock, sampleInvalidMock],
              preResponseHooks := [], disablePartialMatch := false }
            samplePostOrdersMock freshWriter)).2,
       [sampleOrdersMock] ++
         (Mock.WriteResponse samplePostOrdersMock
            (Mock.Matches samplePostOrdersMock
              (threadReq false [sampleOrdersMock] samplePostOrders) false).2.2
            (MockHandler.DoPreResponseHook
              { mocks := [sampleOrdersMock, samplePostOrdersMock, sampleInvalidMock],
                preResponseHooks := [], disablePartialMatch := false }
              samplePostOrdersMock freshWriter)).1.RegisterHit "t" :: [sampleInvalidMock]) :=
  ⟨by decide, by decide, by decide, by decide,
    serveHTTP_first_terminal_wins
      { mocks := [sampleOrdersMock, samplePostOrdersMock, sampleInvalidMock],
        preResponseHooks := [], disablePartialMatch := false }
      [sampleOrdersMock] [sampleInvalidMock] samplePostOrdersMock samplePostOrders
      freshWriter "t" rfl (by decide) (Or.inl (by decide))⟩

end HttptestMock
